import Mathlib

/-!
Verification of the secure-tunneling feature (SecureTunnelingFeature.cpp):
shallow embedding of the notification handler, service/port resolution,
endpoint derivation and the session registry, plus theorems about the
spec-level claims.

Conventions of the embedding:
* the external link-state file read is passed in as `linkState : Option String`
  (`none` models a failed open / failed getline, `some s` models a first line `s`);
* the external tunnel-session connect result is passed in as a `Bool`;
* C++ `Aws::Crt::Optional` fields become `Option`;
* undefined behaviour (dereferencing a past-the-end iterator) is modelled
  as `Option.none` in the result type of the operation that triggers it.
-/

namespace SecureTunneling

/-- Modelled from the spec (§4.3): the originating parameters of a notification
that a registered session stores for duplicate detection — access token, region
and requested service.  The class `SecureTunnelingContext` that stores them is
not among the sources; only its use sites are. -/
structure TunnelRequestOrigin where
  accessToken : String
  region : String
  service : String
deriving DecidableEq, Repr

/-- Modelled from the spec (§3, §4.3): a tunnel session as the registry sees it.
`id` models the object identity (the raw pointer of the `unique_ptr` held in
`mContexts`); `origin` is `none` for the static-config session, which does not
come from a notification. -/
structure SecureTunnelingContext where
  id : Nat
  accessToken : String
  region : String
  endpointHost : String
  address : String
  port : Nat
  origin : Option TunnelRequestOrigin
deriving DecidableEq, Repr

/-- The MQTT notification payload fields consumed by the handler
(`SecureTunnelingNotifyResponse`).  `clientMode` is dereferenced by the code
without a presence check, so it is embedded as a plain `String`; the other
three fields are checked with `has_value()` and are embedded as `Option`. -/
structure SecureTunnelingNotifyResponse where
  clientMode : String
  services : Option (List String)
  clientAccessToken : Option String
  region : Option String
deriving DecidableEq, Repr

/-- Modelled from the spec (§4.1): the address of the two network-bridge
services; the constant lives in the header, which is not among the sources. -/
def EMC_NETWORK_BRIDGE_IP_ADDRESS : String := "169.254.0.1"

/-- Modelled from the spec (§4.1): the TCP-mode bus-service address (header
constant not among the sources). -/
def TIVA_TCP_IP_ADDRESS : String := "169.254.0.2"

/-- Modelled from the spec (§4.1): the fallback serial-relay bus-service
address (header constant not among the sources). -/
def TIVA_RS485_IP_ADDRESS : String := "169.254.0.3"

/-- Modelled from the spec (§4.1) and the source doc comment of
`AddInterlakeEndpoints`: the service-key stem of the numbered interlake
endpoints (header constant not among the sources). -/
def tivaServiceIdStem : String := "TIVA_"

/-- Modelled from the source doc comment of `AddInterlakeEndpoints`:
interlake addresses start at "169.254.0.6". -/
def tivaTcpIpAddressStem : String := "169.254.0."

/-- Modelled from the source doc comment of `AddInterlakeEndpoints`: the
master system host id, so that the master is assigned "169.254.0.6". -/
def MASTER_SYSTEM_HOST_ID : Nat := 6

/-- Modelled from the spec (§4.1): the configured maximum count of interlake
systems (header constant not among the sources). -/
def MAX_INTERLAKE_SYSTEM_SIZE : Nat := 10

/-- Modelled from the spec (§3): port-table entry for "SSH" (header constant
not among the sources); any value in 1–65535 is faithful to the spec. -/
def SSH_TCP_PORT : Nat := 22

/-- Modelled from the spec (§3): port-table entry for "GW" (header constant
not among the sources). -/
def GW_TCP_PORT : Nat := 443

/-- Modelled from the spec (§3): port-table entry for "TIVA" (header constant
not among the sources). -/
def TIVA_TCP_PORT : Nat := 9000

/-- `SecureTunnelingFeature::AddInterlakeEndpoints` (lines 90–98): one entry
per interlake system, keys `TIVA_<i>`, addresses `169.254.0.<6+i>`. -/
def AddInterlakeEndpoints : List (String × String) :=
  (List.range MAX_INTERLAKE_SYSTEM_SIZE).map fun i =>
    (tivaServiceIdStem ++ toString i, tivaTcpIpAddressStem ++ toString (MASTER_SYSTEM_HOST_ID + i))

/-- The lazily-built `mServiceToAddressMap` (lines 102–110): four fixed
entries plus the interlake fan-out. -/
def mServiceToAddressMap : List (String × String) :=
  [("SSH", EMC_NETWORK_BRIDGE_IP_ADDRESS),
   ("GW", EMC_NETWORK_BRIDGE_IP_ADDRESS),
   ("TIVA_TCP", TIVA_TCP_IP_ADDRESS),
   ("TIVA_RS485", TIVA_RS485_IP_ADDRESS)] ++ AddInterlakeEndpoints

/-- The lazily-built `mServiceToPortMap` (lines 124–129): ports are keyed by
base service name only. -/
def mServiceToPortMap : List (String × Nat) :=
  [("SSH", SSH_TCP_PORT), ("GW", GW_TCP_PORT), ("TIVA", TIVA_TCP_PORT)]

/-- `SecureTunnelingFeature::AppendPostfixToService` (lines 141–162): identity
on every service other than "TIVA"; for "TIVA" the first line of the
link-state file selects "_TCP" (line reads exactly "up") or "_RS485"
(anything else, including open/read failure, modelled by `none`). -/
def AppendPostfixToService (linkState : Option String) (service : String) : String :=
  if service ≠ "TIVA" then
    service
  else
    match linkState with
    | some state => if state = "up" then service ++ "_TCP" else service ++ "_RS485"
    | none => service ++ "_RS485"

/-- `SecureTunnelingFeature::GetAddressFromService` (lines 100–120): looks the
normalized service name up in the address table; a missing key yields `""`. -/
def GetAddressFromService (linkState : Option String) (service : String) : String :=
  (mServiceToAddressMap.lookup (AppendPostfixToService linkState service)).getD ""

/-- `SecureTunnelingFeature::GetPortFromService` (lines 122–139): looks the
given (base) service name up in the port table; a missing key yields `0`. -/
def GetPortFromService (service : String) : Nat :=
  (mServiceToPortMap.lookup service).getD 0

/-- Splits a character list at every '.' (the list-level counterpart of
splitting the address string on dots). -/
def splitOnDot : List Char → List (List Char)
  | [] => [[]]
  | c :: rest =>
    let r := splitOnDot rest
    if c = '.' then [] :: r else (c :: r.headD []) :: r.tail

/-- Decimal value of a digit string. -/
def octetVal (l : List Char) : Nat :=
  l.foldl (fun acc c => acc * 10 + (c.toNat - 48)) 0

/-- One dotted-quad component as accepted by glibc `inet_pton(AF_INET, ..)`:
decimal digits only, no leading zero (except "0" itself), value at most 255. -/
def validOctet (l : List Char) : Bool :=
  !l.isEmpty && l.all Char.isDigit && (l = ['0'] || l.headD ' ' ≠ '0') &&
    octetVal l ≤ 255

/-- `SecureTunnelingFeature::IsValidAddress` (lines 203–207):
`inet_pton(AF_INET, address, ..) == 1`, i.e. exactly four valid dotted-quad
components. -/
def IsValidAddress (address : String) : Bool :=
  let parts := splitOnDot address.data
  parts.length = 4 && parts.all validOctet

/-- `SecureTunnelingFeature::IsValidPort` (line 209). -/
def IsValidPort (port : Nat) : Bool :=
  1 ≤ port && port ≤ 65535

/-- Modelled from the spec (§4.4) and the source comment at lines 371–373:
the templated proxy hostname `DEFAULT_PROXY_ENDPOINT_HOST_FORMAT` applied to
the region (the format constant lives in the header, which is not among the
sources; the comment documents `data.tunneling.iot.<region>.amazonaws.com`). -/
def defaultProxyEndpointHost (region : String) : String :=
  "data.tunneling.iot." ++ region ++ ".amazonaws.com"

/-- `SecureTunnelingFeature::GetEndpoint` (lines 360–378): a configured
override endpoint is returned verbatim; otherwise the templated hostname,
with ".cn" appended when the first three characters of the region are "cn-". -/
def GetEndpoint (mEndpoint : Option String) (region : String) : String :=
  match mEndpoint with
  | some e => e
  | none =>
    let endpoint := defaultProxyEndpointHost region
    if region.take 3 = "cn-" then endpoint ++ ".cn" else endpoint

/-- Modelled from the spec (§4.3): the originating parameters carried by a
notification — access token, region and the (single) requested service.
`none` when the notification is missing any of them. -/
def originOf (r : SecureTunnelingNotifyResponse) : Option TunnelRequestOrigin :=
  match r.clientAccessToken, r.region, r.services with
  | some tok, some reg, some (s :: _) => some ⟨tok, reg, s⟩
  | _, _, _ => none

/-- Modelled from the spec (§4.3): `SecureTunnelingContext::IsDuplicateNotification`
(the class is not among the sources) — the notification matches a registered
session when their access token, region and requested service coincide. -/
def IsDuplicateNotification (c : SecureTunnelingContext) (r : SecureTunnelingNotifyResponse) :
    Bool :=
  match originOf r with
  | some o => decide (c.origin = some o)
  | none => false

/-- The reasons for which the notification handler rejects a notification
(one per early-return of lines 284–335). -/
inductive RejectReason where
  | unexpectedClientMode
  | noServiceRequested
  | multiPortUnsupported
  | emptyAccessToken
  | emptyRegion
  | invalidAddress
  | invalidPort
deriving DecidableEq, Repr

/-- The resolved parameters a passing notification yields (the local
variables `accessToken`, `region`, `service`, `address`, `port` of the
handler). -/
structure Resolved where
  accessToken : String
  region : String
  service : String
  address : String
  port : Nat
deriving DecidableEq, Repr

/-- The base service name used for the port lookup: the requested service
truncated at the first '_' (`service.substr(0, service.find("_"))`,
line 329). -/
def baseServiceName (service : String) : String :=
  String.mk (service.data.takeWhile fun c => c ≠ '_')

/-- The validation/resolution pipeline of
`SecureTunnelingFeature::OnSubscribeToTunnelsNotifyResponse` (lines 284–335),
in the source's order: client mode, services present and non-empty, at most
one service, access token, region, resolved address, resolved port (looked
up by the service name truncated at the first '_'). -/
def validateAndResolve (r : SecureTunnelingNotifyResponse) (linkState : Option String) :
    Except RejectReason Resolved :=
  if r.clientMode ≠ "destination" then
    .error .unexpectedClientMode
  else
    match r.services with
    | none => .error .noServiceRequested
    | some svcs =>
      if svcs.isEmpty then .error .noServiceRequested
      else if svcs.length > 1 then .error .multiPortUnsupported
      else
        match r.clientAccessToken with
        | none => .error .emptyAccessToken
        | some accessToken =>
          if accessToken.isEmpty then .error .emptyAccessToken
          else
            match r.region with
            | none => .error .emptyRegion
            | some region =>
              if region.isEmpty then .error .emptyRegion
              else
                let service := svcs.headD ""
                let address := GetAddressFromService linkState service
                if ¬IsValidAddress address then .error .invalidAddress
                else
                  let port := GetPortFromService (baseServiceName service)
                  if ¬IsValidPort port then .error .invalidPort
                  else .ok ⟨accessToken, region, service, address, port⟩

/-- The feature's mutable state: the session registry `mContexts`, the
configured override endpoint `mEndpoint`, the mode flag
`mSubscribeNotification`, plus a counter generating fresh object identities
for newly allocated contexts. -/
structure FeatureState where
  mContexts : List SecureTunnelingContext
  mEndpoint : Option String
  mSubscribeNotification : Bool
  nextId : Nat
deriving Repr

/-- `SecureTunnelingFeature::createContext` (lines 380–394): builds a session
from token, region, address and port, deriving the endpoint host from the
region; the stored `origin` is the spec-modelled originating-parameters
record used by duplicate detection. -/
def createContext (st : FeatureState) (accessToken region address : String) (port : Nat)
    (origin : Option TunnelRequestOrigin) : SecureTunnelingContext :=
  { id := st.nextId
    accessToken := accessToken
    region := region
    endpointHost := GetEndpoint st.mEndpoint region
    address := address
    port := port
    origin := origin }

/-- `SecureTunnelingFeature::OnSubscribeToTunnelsNotifyResponse`
(lines 263–345): drop on transport error or null payload; drop duplicates;
validate and resolve; create a session and register it only when its initial
connect (`connectOk`, the external tunnel-session capability's result)
reports success. -/
def OnSubscribeToTunnelsNotifyResponse (st : FeatureState)
    (response : Option SecureTunnelingNotifyResponse) (ioErr : Int)
    (linkState : Option String) (connectOk : Bool) : FeatureState :=
  if ioErr ≠ 0 then st
  else
    match response with
    | none => st
    | some r =>
      if st.mContexts.any fun c => IsDuplicateNotification c r then st
      else
        match validateAndResolve r linkState with
        | .error _ => st
        | .ok p =>
          if connectOk then
            { st with
              mContexts := st.mContexts ++
                [createContext st p.accessToken p.region p.address p.port (originOf r)]
              nextId := st.nextId + 1 }
          else st

/-- `SecureTunnelingFeature::OnConnectionShutdown` (lines 402–415): locate
the closing session by object identity with `find_if`, then erase it via the
`std::remove` call.  When no entry matches, the C++ dereferences the
past-the-end iterator (`*it` with `it == mContexts.end()`): undefined
behaviour, modelled as `none`. -/
def OnConnectionShutdown (contexts : List SecureTunnelingContext) (target : Nat) :
    Option (List SecureTunnelingContext) :=
  match contexts.find? (fun c => c.id == target) with
  | some c => some (contexts.eraseP fun x => x.id == c.id)
  | none => none

/-- The tunneling section of `PlainConfig` as consumed by `LoadFromConfig`
(lines 211–230): the static-mode fields are `Optional` in the source and are
dereferenced without checks in static mode. -/
structure PlainConfigTunneling where
  subscribeNotification : Bool
  endpoint : Option String
  destinationAccessToken : Option String
  region : Option String
  address : Option String
  port : Option Nat
deriving Repr

/-- `SecureTunnelingFeature::LoadFromConfig` (lines 211–230): records the
mode flag and override endpoint; in static mode, stages one session built
from the configured token, region, address and port, pushing it into
`mContexts` unconditionally. -/
def LoadFromConfig (cfg : PlainConfigTunneling) : FeatureState :=
  let st : FeatureState :=
    { mContexts := []
      mEndpoint := cfg.endpoint
      mSubscribeNotification := cfg.subscribeNotification
      nextId := 0 }
  if cfg.subscribeNotification then st
  else
    { st with
      mContexts :=
        [{ id := 0
           accessToken := cfg.destinationAccessToken.getD ""
           region := cfg.region.getD ""
           endpointHost := GetEndpoint cfg.endpoint (cfg.region.getD "")
           address := cfg.address.getD ""
           port := cfg.port.getD 0
           origin := none }]
      nextId := 1 }

/-- `SecureTunnelingFeature::RunSecureTunneling` (lines 232–261): in
notification mode it subscribes to the notify topic (inbound messages are
then handled by `OnSubscribeToTunnelsNotifyResponse`); in static mode it
calls `ConnectToSecureTunnel` on each staged context, discarding the boolean
results (`connects`).  Neither branch modifies the registry. -/
def RunSecureTunneling (st : FeatureState) (_connects : Nat → Bool) : FeatureState :=
  st

/-- One transition of the feature: either the notification callback fires
(with arbitrary payload, transport error code, link state and connect
result), or a session's close callback fires and its removal succeeds. -/
inductive Step : FeatureState → FeatureState → Prop where
  | notify (st : FeatureState) (resp : Option SecureTunnelingNotifyResponse) (ioErr : Int)
      (ls : Option String) (ok : Bool) :
      Step st (OnSubscribeToTunnelsNotifyResponse st resp ioErr ls ok)
  | shutdown (st : FeatureState) (target : Nat) (l : List SecureTunnelingContext)
      (h : OnConnectionShutdown st.mContexts target = some l) :
      Step st { st with mContexts := l }

/-- The states the feature can reach from its post-`init` state under any
interleaving of notification deliveries and close callbacks. -/
def Reachable (cfg : PlainConfigTunneling) (st : FeatureState) : Prop :=
  Relation.ReflTransGen Step (LoadFromConfig cfg) st

/-- The validator's checks, written independently from the spec's wording
(§4.2), in the spec's order, each paired with the rejection it produces on
failure.  Compared against `validateAndResolve` (the code) for claim C3. -/
def specChecks (r : SecureTunnelingNotifyResponse) (linkState : Option String) :
    List (Bool × RejectReason) :=
  let svcs := r.services.getD []
  let service := svcs.headD ""
  [ (r.clientMode == "destination", .unexpectedClientMode),
    (!svcs.isEmpty, .noServiceRequested),
    (svcs.length == 1, .multiPortUnsupported),
    (!(r.clientAccessToken.getD "").isEmpty, .emptyAccessToken),
    (!(r.region.getD "").isEmpty, .emptyRegion),
    (IsValidAddress (GetAddressFromService linkState service), .invalidAddress),
    (IsValidPort (GetPortFromService (baseServiceName service)), .invalidPort) ]

/-- First failing check of a pipeline, short-circuiting: later checks are
not consulted once one fails. -/
def firstFailing : List (Bool × RejectReason) → Option RejectReason
  | [] => none
  | (ok, rej) :: rest => if ok then firstFailing rest else some rej

/-- The rejection (if any) of a validation outcome. -/
def rejectionOf (e : Except RejectReason Resolved) : Option RejectReason :=
  match e with
  | .error rej => some rej
  | .ok _ => none

/-- No two registered sessions carry the same originating notification
parameters (the registry invariant of spec §3/§4.3). -/
def dedupFree (l : List SecureTunnelingContext) : Prop :=
  l.Pairwise fun a b => ∀ o, a.origin = some o → b.origin ≠ some o

/-- A registered session used as concrete input. -/
def sampleContextA : SecureTunnelingContext :=
  ⟨1, "t1", "r1", "h1", "169.254.0.1", 22, none⟩

/-- Another registered session used as concrete input. -/
def sampleContextB : SecureTunnelingContext :=
  ⟨2, "t2", "r2", "h2", "169.254.0.2", 443, none⟩

/-- A notification-mode configuration used as concrete input. -/
def sampleConfigNotify : PlainConfigTunneling :=
  { subscribeNotification := true
    endpoint := none
    destinationAccessToken := none
    region := none
    address := none
    port := none }

/-- The static-mode configuration of spec §8's end-to-end example. -/
def sampleConfigStatic : PlainConfigTunneling :=
  { subscribeNotification := false
    endpoint := none
    destinationAccessToken := some "tok"
    region := some "us-east-1"
    address := some "10.0.0.5"
    port := some 443 }

/-- A well-formed notification used as concrete input. -/
def sampleNotification : SecureTunnelingNotifyResponse :=
  { clientMode := "destination"
    services := some ["SSH"]
    clientAccessToken := some "tok"
    region := some "us-east-1" }

/-- The state after the notification-mode feature accepts
`sampleNotification` with a successful connect. -/
def sampleState1 : FeatureState :=
  OnSubscribeToTunnelsNotifyResponse (LoadFromConfig sampleConfigNotify)
    (some sampleNotification) 0 none true

/-- C10: a notification delivery with a nonzero transport error code or a
null payload is dropped before the duplicate check and validation — the
handler returns the state unchanged, so no session is created and the
registry is untouched. -/
theorem transport_error_or_null_payload_leaves_registry_unchanged
    (st : FeatureState) (resp : Option SecureTunnelingNotifyResponse) (ioErr : Int)
    (ls : Option String) (ok : Bool) (h : ioErr ≠ 0 ∨ resp = none) :
    OnSubscribeToTunnelsNotifyResponse st resp ioErr ls ok = st := by
  rcases h with h | h
  · simp [OnSubscribeToTunnelsNotifyResponse, h]
  · subst h
    by_cases h2 : ioErr ≠ 0 <;> simp [OnSubscribeToTunnelsNotifyResponse, h2]

/-- Witness for C10 at a concrete erroring delivery. -/
theorem transport_error_or_null_payload_witness :
    OnSubscribeToTunnelsNotifyResponse ⟨[], none, true, 0⟩ none 5 none true
      = ⟨[], none, true, 0⟩ :=
  transport_error_or_null_payload_leaves_registry_unchanged _ _ _ _ _ (Or.inl (by decide))

/-- C6: service-name normalization is the identity except on "TIVA"; for
"TIVA" a link-state line of exactly "up" yields "TIVA_TCP" and any other
content (including a failed read) yields "TIVA_RS485"; the normalized name
is the address-table lookup key. -/
theorem service_name_normalization (s : String) (ls : Option String)
    (hs : s ≠ "TIVA") (hls : ls ≠ some "up") :
    AppendPostfixToService ls s = s ∧
    AppendPostfixToService (some "up") "TIVA" = "TIVA_TCP" ∧
    AppendPostfixToService ls "TIVA" = "TIVA_RS485" ∧
    ∀ (ls2 : Option String) (svc : String),
      GetAddressFromService ls2 svc
        = (mServiceToAddressMap.lookup (AppendPostfixToService ls2 svc)).getD "" := by
  refine ⟨by simp [AppendPostfixToService, hs], by decide, ?_, fun ls2 svc => rfl⟩
  cases ls with
  | none => decide
  | some state =>
    have hne : state ≠ "up" := fun h => hls (by rw [h])
    simp [AppendPostfixToService, hne]

/-- Witness for C6 at a non-bus service and a downed link state. -/
theorem service_name_normalization_witness :
    AppendPostfixToService (some "down") "SSH" = "SSH" ∧
    AppendPostfixToService (some "up") "TIVA" = "TIVA_TCP" ∧
    AppendPostfixToService (some "down") "TIVA" = "TIVA_RS485" ∧
    ∀ (ls2 : Option String) (svc : String),
      GetAddressFromService ls2 svc
        = (mServiceToAddressMap.lookup (AppendPostfixToService ls2 svc)).getD "" :=
  service_name_normalization "SSH" (some "down") (by decide) (by decide)

/-- A region's first three characters are "cn-" exactly when "cn-" is a
prefix of the region. -/
theorem take_three_eq_cn_iff (region : String) :
    region.take 3 = "cn-" ↔ ∃ rest, region = "cn-" ++ rest := by
  constructor
  · intro h
    refine ⟨region.drop 3, String.ext ?_⟩
    have hd : List.take 3 region.data = "cn-".data := by
      rw [← String.data_take]; exact congrArg String.data h
    rw [String.data_append, String.data_drop, ← hd, List.take_append_drop]
  · rintro ⟨rest, rfl⟩
    apply String.ext
    rw [String.data_take, String.data_append]
    have h3 : (3 : Nat) = ("cn-".data).length := by decide
    rw [h3, List.take_left]

/-- C8: GetEndpoint returns a configured override endpoint verbatim; with no
override it returns the templated hostname for the region, with ".cn"
appended exactly when the region begins with "cn-". -/
theorem endpoint_override_and_partition_suffix (e region rest : String) :
    GetEndpoint (some e) region = e ∧
    (region = "cn-" ++ rest →
      GetEndpoint none region = defaultProxyEndpointHost region ++ ".cn") ∧
    ((∀ r2, region ≠ "cn-" ++ r2) →
      GetEndpoint none region = defaultProxyEndpointHost region) := by
  refine ⟨rfl, ?_, ?_⟩
  · intro h
    have hc : region.take 3 = "cn-" := (take_three_eq_cn_iff region).2 ⟨rest, h⟩
    simp [GetEndpoint, hc]
  · intro h
    have hc : ¬region.take 3 = "cn-" := fun hc =>
      match (take_three_eq_cn_iff region).1 hc with
      | ⟨r2, hr⟩ => h r2 hr
    simp [GetEndpoint, hc]

/-- Witness for C8: the spec's two example regions, plus a verbatim override. -/
theorem endpoint_override_and_partition_suffix_witness :
    GetEndpoint (some "ep.example") "cn-north-1" = "ep.example" ∧
    GetEndpoint none "cn-north-1" = defaultProxyEndpointHost "cn-north-1" ++ ".cn" ∧
    GetEndpoint none "us-east-1" = defaultProxyEndpointHost "us-east-1" :=
  ⟨(endpoint_override_and_partition_suffix "ep.example" "cn-north-1" "north-1").1,
   (endpoint_override_and_partition_suffix "ep.example" "cn-north-1" "north-1").2.1 (by decide),
   (endpoint_override_and_partition_suffix "ep.example" "us-east-1" "x").2.2
     (fun r2 hr => absurd ((take_three_eq_cn_iff "us-east-1").2 ⟨r2, hr⟩) (by decide))⟩

/-- C5 (code bug): the close callback is not a no-op for a session reference
absent from the registry — the C++ dereferences the past-the-end iterator
(undefined behaviour, modelled as `none`), here evaluated on an empty
registry and on a registry whose only entry has a different identity. -/
theorem close_callback_on_absent_session_is_undefined_behaviour :
    OnConnectionShutdown [] 0 = none ∧
    OnConnectionShutdown [⟨1, "tok", "us-east-1", "h", "169.254.0.1", 22, none⟩] 0 = none := by
  constructor <;> rfl

/-- C2: a validated, non-duplicate notification's session enters the
registry (appended after the existing sessions) exactly when its initial
connect reports success; on a failed connect the whole state — in
particular the registry — is unchanged, and no retry happens (the handler
makes a single connect attempt per notification). -/
theorem dynamic_session_registered_iff_connect_succeeds
    (st : FeatureState) (r : SecureTunnelingNotifyResponse) (ls : Option String) (p : Resolved)
    (hv : validateAndResolve r ls = .ok p)
    (hd : ∀ c ∈ st.mContexts, IsDuplicateNotification c r = false) :
    (OnSubscribeToTunnelsNotifyResponse st (some r) 0 ls true).mContexts
      = st.mContexts ++
        [createContext st p.accessToken p.region p.address p.port (originOf r)] ∧
    OnSubscribeToTunnelsNotifyResponse st (some r) 0 ls false = st := by
  have hany : (st.mContexts.any fun c => IsDuplicateNotification c r) = false :=
    List.any_eq_false.2 fun c hc => by simp [hd c hc]
  constructor
  · simp [OnSubscribeToTunnelsNotifyResponse, hany, hv]
  · simp [OnSubscribeToTunnelsNotifyResponse, hany, hv]

/-- Witness for C2 at a concrete passing notification against an empty
registry. -/
theorem dynamic_session_registered_iff_connect_succeeds_witness :
    (OnSubscribeToTunnelsNotifyResponse ⟨[], none, true, 0⟩ (some sampleNotification) 0 none
        true).mContexts
      = [] ++ [createContext ⟨[], none, true, 0⟩ "tok" "us-east-1" "169.254.0.1" 22
          (originOf sampleNotification)] ∧
    OnSubscribeToTunnelsNotifyResponse ⟨[], none, true, 0⟩ (some sampleNotification) 0 none
        false = ⟨[], none, true, 0⟩ :=
  dynamic_session_registered_iff_connect_succeeds ⟨[], none, true, 0⟩ sampleNotification none
    ⟨"tok", "us-east-1", "SSH", "169.254.0.1", 22⟩ (by rfl) (by simp)

/-- Erasing the first identity match equals filtering the identity out when
object identities are pairwise distinct. -/
theorem eraseP_eq_filter_of_nodup_ids
    (l : List SecureTunnelingContext) (t : Nat)
    (h : (l.map fun c => c.id).Nodup) :
    (l.eraseP fun x => x.id == t) = l.filter fun x => x.id != t := by
  induction l with
  | nil => rfl
  | cons a l ih =>
    simp only [List.map_cons, List.nodup_cons, List.mem_map] at h
    by_cases ha : a.id = t
    · rw [List.eraseP_cons_of_pos (by simp [ha]), List.filter_cons_of_neg (by simp [ha])]
      exact (List.filter_eq_self.2 fun x hx => by
        simp only [bne_iff_ne, ne_eq]
        intro hxt
        exact h.1 ⟨x, hx, by rw [hxt, ha]⟩).symm
    · rw [List.eraseP_cons_of_neg (by simp [ha]), List.filter_cons_of_pos (by simp [ha])]
      rw [ih h.2]

/-- C4: when a registered session's close callback fires, exactly that
session — located by object identity — is removed: the handler succeeds,
the result is the registry with that identity filtered out, the closing
session is gone, every other session is still present, and the length drops
by exactly one. -/
theorem close_callback_removes_exactly_the_closing_session
    (l : List SecureTunnelingContext) (c : SecureTunnelingContext)
    (hmem : c ∈ l) (hid : (l.map fun x => x.id).Nodup) :
    OnConnectionShutdown l c.id = some (l.filter fun x => x.id != c.id) ∧
    c ∉ (l.filter fun x => x.id != c.id) ∧
    (∀ x ∈ l, x ≠ c → x ∈ (l.filter fun x => x.id != c.id)) ∧
    (l.filter fun x => x.id != c.id).length + 1 = l.length := by
  have hfind : ∃ c2, l.find? (fun x => x.id == c.id) = some c2 := by
    rcases hf : l.find? (fun x => x.id == c.id) with _ | c2
    · exact absurd (List.find?_eq_none.1 hf c hmem) (by simp)
    · exact ⟨c2, hf⟩
  obtain ⟨c2, hf⟩ := hfind
  have hc2id : c2.id = c.id := by
    have := List.find?_some hf
    simpa using this
  refine ⟨?_, ?_, ?_, ?_⟩
  · unfold OnConnectionShutdown
    rw [hf]
    dsimp only
    rw [hc2id, eraseP_eq_filter_of_nodup_ids l c.id hid]
  · intro hm
    rcases List.mem_filter.1 hm with ⟨_, hbad⟩
    simp at hbad
  · intro x hx hne
    refine List.mem_filter.2 ⟨hx, ?_⟩
    simp only [bne_iff_ne, ne_eq]
    intro hxid
    exact hne (List.inj_on_of_nodup_map hid hx hmem hxid)
  · rw [← eraseP_eq_filter_of_nodup_ids l c.id hid]
    exact List.length_eraseP_add_one hmem (by simp)

/-- Witness for C4 on a two-session registry. -/
theorem close_callback_removes_exactly_the_closing_session_witness :
    OnConnectionShutdown [sampleContextA, sampleContextB] sampleContextA.id
      = some ([sampleContextA, sampleContextB].filter fun x => x.id != sampleContextA.id) ∧
    sampleContextA ∉
      ([sampleContextA, sampleContextB].filter fun x => x.id != sampleContextA.id) ∧
    (∀ x ∈ [sampleContextA, sampleContextB], x ≠ sampleContextA →
      x ∈ ([sampleContextA, sampleContextB].filter fun x => x.id != sampleContextA.id)) ∧
    ([sampleContextA, sampleContextB].filter fun x => x.id != sampleContextA.id).length + 1
      = [sampleContextA, sampleContextB].length :=
  close_callback_removes_exactly_the_closing_session [sampleContextA, sampleContextB]
    sampleContextA (by decide) (by decide)

/-- C7: in static mode, by the time start completes the registry holds
exactly one session, built from the configured token, region, address and
port, independently of the connect results (the static connect's return
value is discarded) and with no duplicate check involved. -/
theorem static_mode_registers_exactly_one_session
    (cfg : PlainConfigTunneling) (tok reg addr : String) (port : Nat)
    (hs : cfg.subscribeNotification = false)
    (ht : cfg.destinationAccessToken = some tok) (hr : cfg.region = some reg)
    (ha : cfg.address = some addr) (hp : cfg.port = some port)
    (connects : Nat → Bool) :
    (RunSecureTunneling (LoadFromConfig cfg) connects).mContexts
      = [{ id := 0
           accessToken := tok
           region := reg
           endpointHost := GetEndpoint cfg.endpoint reg
           address := addr
           port := port
           origin := none }] := by
  simp [RunSecureTunneling, LoadFromConfig, hs, ht, hr, ha, hp]

/-- Witness for C7 at the spec's end-to-end static configuration, with a
connect oracle that always fails. -/
theorem static_mode_registers_exactly_one_session_witness :
    (RunSecureTunneling (LoadFromConfig sampleConfigStatic) fun _ => false).mContexts
      = [{ id := 0
           accessToken := "tok"
           region := "us-east-1"
           endpointHost := GetEndpoint sampleConfigStatic.endpoint "us-east-1"
           address := "10.0.0.5"
           port := 443
           origin := none }] :=
  static_mode_registers_exactly_one_session sampleConfigStatic "tok" "us-east-1" "10.0.0.5"
    443 rfl rfl rfl rfl rfl (fun _ => false)

/-- C3: the validator equals the short-circuiting pipeline that applies the
spec's checks in the fixed order (client mode, services non-empty, exactly
one service, token non-empty, region non-empty, valid resolved address,
valid resolved port keyed by the suffix-stripped base service name), and
every rejection is terminal: the handler leaves the state — in particular
the registry — unchanged. -/
theorem validator_applies_checks_in_order_and_rejections_are_terminal
    (r : SecureTunnelingNotifyResponse) (ls : Option String) :
    rejectionOf (validateAndResolve r ls) = firstFailing (specChecks r ls) ∧
    ∀ (st : FeatureState) (ok : Bool) (rej : RejectReason),
      validateAndResolve r ls = .error rej →
      OnSubscribeToTunnelsNotifyResponse st (some r) 0 ls ok = st := by
  constructor
  · rcases r with ⟨cm, svcs, tok, reg⟩
    by_cases h1 : cm = "destination"
    · subst h1
      rcases svcs with _ | svcsl
      · simp +decide [validateAndResolve, specChecks, firstFailing, rejectionOf]
      · rcases svcsl with _ | ⟨s, rest⟩
        · simp +decide [validateAndResolve, specChecks, firstFailing, rejectionOf]
        · rcases rest with _ | ⟨s2, rest2⟩
          · rcases tok with _ | tk
            · simp +decide [validateAndResolve, specChecks, firstFailing, rejectionOf]
            · by_cases htk : tk.isEmpty
              · simp +decide [validateAndResolve, specChecks, firstFailing, rejectionOf, htk]
              · rcases reg with _ | rg
                · simp +decide [validateAndResolve, specChecks, firstFailing, rejectionOf, htk]
                · by_cases hrg : rg.isEmpty
                  · simp +decide [validateAndResolve, specChecks, firstFailing, rejectionOf, htk, hrg]
                  · by_cases haddr : IsValidAddress (GetAddressFromService ls s)
                    · by_cases hport :
                        IsValidPort (GetPortFromService (baseServiceName s))
                      · simp +decide [validateAndResolve, specChecks, firstFailing, rejectionOf,
                          htk, hrg, haddr, hport]
                      · simp +decide [validateAndResolve, specChecks, firstFailing, rejectionOf,
                          htk, hrg, haddr, hport]
                    · simp +decide [validateAndResolve, specChecks, firstFailing, rejectionOf,
                        htk, hrg, haddr]
          · have hlen : (s :: s2 :: rest2).length > 1 := by
              simp [List.length_cons]
            have hlen2 : ((s :: s2 :: rest2).length == 1) = false := by
              simp [List.length_cons]
            simp +decide [validateAndResolve, specChecks, firstFailing, rejectionOf, hlen, hlen2]
    · simp +decide [validateAndResolve, specChecks, firstFailing, rejectionOf, h1]
  · intro st ok rej h
    simp [OnSubscribeToTunnelsNotifyResponse, h]

/-- Witness for C3 at a notification with an unexpected client mode. -/
theorem validator_applies_checks_in_order_witness :
    rejectionOf (validateAndResolve ⟨"source", none, none, none⟩ none)
      = firstFailing (specChecks ⟨"source", none, none, none⟩ none) ∧
    OnSubscribeToTunnelsNotifyResponse ⟨[], none, true, 0⟩
        (some ⟨"source", none, none, none⟩) 0 none true = ⟨[], none, true, 0⟩ :=
  ⟨(validator_applies_checks_in_order_and_rejections_are_terminal
      ⟨"source", none, none, none⟩ none).1,
   (validator_applies_checks_in_order_and_rejections_are_terminal
      ⟨"source", none, none, none⟩ none).2 ⟨[], none, true, 0⟩ true
     RejectReason.unexpectedClientMode (by rfl)⟩

/-- Every feature transition preserves the no-duplicate-origins registry
invariant: a notification step only appends a context after the duplicate
scan over the whole registry came back empty, and a shutdown step only
removes. -/
theorem step_preserves_dedupFree {st st' : FeatureState} (hstep : Step st st')
    (hinv : dedupFree st.mContexts) : dedupFree st'.mContexts := by
  cases hstep with
  | notify resp ioErr ls ok =>
    unfold OnSubscribeToTunnelsNotifyResponse
    split
    · exact hinv
    · split
      · exact hinv
      · rename_i r
        split
        · exact hinv
        · rename_i hany
          split
          · exact hinv
          · split
            · show dedupFree (st.mContexts ++ [_])
              unfold dedupFree at hinv ⊢
              rw [List.pairwise_append]
              refine ⟨hinv, List.pairwise_singleton _ _, ?_⟩
              intro a ha b hb o hao
              simp only [List.mem_singleton] at hb
              subst hb
              show originOf r ≠ some o
              cases ho : originOf r with
              | none => simp
              | some o0 =>
                have hfalse : ∀ c ∈ st.mContexts, ¬(IsDuplicateNotification c r = true) :=
                  List.any_eq_false.1 (by rwa [Bool.not_eq_true] at hany)
                have hne : a.origin ≠ some o0 := by
                  have := hfalse a ha
                  simpa [IsDuplicateNotification, ho] using this
                intro hcontra
                injection hcontra with h0
                subst h0
                exact hne hao
            · exact hinv
  | shutdown target l h =>
    unfold OnConnectionShutdown at h
    rcases hfind : st.mContexts.find? (fun c => c.id == target) with _ | c
    · rw [hfind] at h
      cases h
    · rw [hfind] at h
      dsimp only at h
      injection h with h2
      show dedupFree l
      rw [← h2]
      exact List.Pairwise.sublist (List.eraseP_sublist _) hinv

/-- From any post-`init` state, every reachable registry is free of
duplicate-originated sessions. -/
theorem reachable_dedupFree (cfg : PlainConfigTunneling) (st : FeatureState)
    (h : Reachable cfg st) : dedupFree st.mContexts := by
  unfold Reachable at h
  induction h with
  | refl =>
    unfold LoadFromConfig dedupFree
    split
    · simp
    · simp
  | tail _ hstep ih => exact step_preserves_dedupFree hstep ih

/-- C1: in every reachable state the registry never holds two sessions whose
originating notifications share access token, region and requested service;
and a notification matching the originating parameters of any currently
registered session is dropped — the handler returns the state unchanged and
no session is created. -/
theorem registry_never_holds_duplicate_originated_sessions
    (cfg : PlainConfigTunneling) (st : FeatureState) (h : Reachable cfg st) :
    dedupFree st.mContexts ∧
    ∀ (r : SecureTunnelingNotifyResponse) (ls : Option String) (ok : Bool),
      (∃ c ∈ st.mContexts, IsDuplicateNotification c r = true) →
      OnSubscribeToTunnelsNotifyResponse st (some r) 0 ls ok = st := by
  refine ⟨reachable_dedupFree cfg st h, ?_⟩
  rintro r ls ok ⟨c, hc, hdup⟩
  have hany : (st.mContexts.any fun c => IsDuplicateNotification c r) = true :=
    List.any_eq_true.2 ⟨c, hc, hdup⟩
  simp [OnSubscribeToTunnelsNotifyResponse, hany]

/-- Witness for C1: after the notification-mode feature accepts
`sampleNotification`, the reached registry is duplicate-free and a second,
identical notification leaves the state unchanged. -/
theorem registry_never_holds_duplicate_originated_sessions_witness :
    dedupFree sampleState1.mContexts ∧
    OnSubscribeToTunnelsNotifyResponse sampleState1 (some sampleNotification) 0 none true
      = sampleState1 :=
  have h : Reachable sampleConfigNotify sampleState1 :=
    Relation.ReflTransGen.single
      (Step.notify (LoadFromConfig sampleConfigNotify) (some sampleNotification) 0 none true)
  have hthm := registry_never_holds_duplicate_originated_sessions sampleConfigNotify
    sampleState1 h
  ⟨hthm.1,
   hthm.2 sampleNotification none true
     ⟨createContext (LoadFromConfig sampleConfigNotify) "tok" "us-east-1" "169.254.0.1" 22
        (originOf sampleNotification), by decide, by decide⟩⟩

end SecureTunneling
